import Mathlib

/-!
Verification development for the pyzipgrep archive-search engine.

Shallow embedding of the core modules:
- utils/common.py     : validate_chunk_size
- utils/exceptions.py : the exception taxonomy (PyExc)
- core/handler.py     : ContentController (line splitting, match records)
- core/streamer.py    : chunked reads, tenacity retry policy
- core/engine.py      : archive classification, member enumeration with the
                        hidden-path filter, find_file_contents with nested
                        .zip recursion, the class-level counters
- filters/base.py     : AndFilter / OrFilter / NotFilter composition
- filters/file_filters.py : FileExtensionFilter

Machine details that matter to the claims and are modelled explicitly:
- Exceptions are modelled with Except.  The inductive PyExc mirrors the
  classes of utils/exceptions.py plus the Python builtins and the tenacity
  error that can actually be raised by the code paths under study.
- The nested-archive recursion of engine.py resolves the member NAME
  against the host filesystem (zipfile.is_zipfile(inner_file) and
  ArchiveEngine(inner_file) both take the bare member string as an on-disk
  path), so the model carries an explicit host filesystem: a finite map
  from path to the archive present on disk at that path.
- Python generators terminate; recursion depth is bounded by the
  interpreter recursion limit.  The engine recursion is modelled with a
  fuel parameter large enough for every concrete scenario (fuel
  exhaustion, which no scenario reaches, is a recursionError).
-/

/-- Exception taxonomy.  Constructors archiveKeyError, invalidPredicate,
invalidChunkSize, noValidArchives, filterException mirror the classes of
utils/exceptions.py; typeError, osError, recursionError mirror the Python
builtins; retryError mirrors tenacity.RetryError. -/
inductive PyExc where
  | archiveKeyError (msg : String)
  | invalidPredicate (msg : String)
  | invalidChunkSize (msg : String)
  | noValidArchives (msg : String)
  | filterException (msg : String)
  | typeError (msg : String)
  | osError (msg : String)
  | recursionError (msg : String)
  | retryError (msg : String)
deriving DecidableEq, Repr

/-- The line_no field of an ArchiveMatch (core/models.py).  The Python code
stores either the int enumeration index (whole-file mode) or the string
str(idx) + "?" produced by ContentController._not_implemented_idx when a
chunk_size is set. -/
inductive LineNo where
  | intIdx (n : Nat)
  | strIdx (s : String)
deriving DecidableEq, Repr

/-- ArchiveMatch of core/models.py restricted to the fields the engine
populates (archive, inner_file, line_no, match_text); context fields are
never set by the engine and are omitted. -/
structure ArchiveMatch where
  archive : String
  innerFile : String
  lineNo : LineNo
  matchText : String
deriving DecidableEq, Repr

/-- Split a character list on a separator character; the list of pieces is
never empty (Python str.split with a one-character separator). -/
def splitCharList (sep : Char) : List Char → List (List Char)
  | [] => [[]]
  | c :: rest =>
    if c = sep then [] :: splitCharList sep rest
    else
      match splitCharList sep rest with
      | [] => [[c]]
      | h :: t => (c :: h) :: t

/-- Python str.split(sep) for a one-character separator. -/
def pySplit (sep : Char) (s : String) : List String :=
  (splitCharList sep s.toList).map (fun l => String.mk l)

/-- Python str.startswith. -/
def strStartsWith (s pre : String) : Bool :=
  pre.toList.isPrefixOf s.toList

/-- Python str.endswith. -/
def strEndsWith (s suf : String) : Bool :=
  suf.toList.isSuffixOf s.toList

/-- Python `c in s` for a one-character needle. -/
def strContainsChar (s : String) (c : Char) : Bool :=
  s.toList.contains c

/-- The pattern occurs as a contiguous run inside the list. -/
def listIsInfixOf (pat : List Char) : List Char → Bool
  | [] => pat.isEmpty
  | c :: rest => pat.isPrefixOf (c :: rest) || listIsInfixOf pat rest

/-- Python `pat in s` (substring containment). -/
def strContainsSub (s pat : String) : Bool :=
  listIsInfixOf pat.toList s.toList

/-- Python str.lower restricted to the caseless mapping of single code
points. -/
def strToLower (s : String) : String :=
  String.mk (s.toList.map Char.toLower)

/-- Python str.splitlines for text whose line separators are the newline
character.  No trailing empty line for trailing newline; empty string gives
the empty list. -/
def pySplitlines (s : String) : List String :=
  if s = "" then []
  else
    let parts := pySplit '\n' s
    if parts.getLastD "" = "" then parts.dropLast else parts

/-- Python enumerate(xs, start=k). -/
def pyEnumerate {α : Type} : Nat → List α → List (Nat × α)
  | _, [] => []
  | k, a :: rest => (k, a) :: pyEnumerate (k + 1) rest

/-- ContentController._not_implemented_idx: when a chunk_size is set the
index becomes the string str(idx) + "?", otherwise the int index is kept. -/
def notImplementedIdx (chunkSize : Option Int) (idx : Nat) : LineNo :=
  match chunkSize with
  | some _ => LineNo.strIdx (toString idx ++ "?")
  | none => LineNo.intIdx idx

/-- The content predicate may be None (`if content_predicate and not
content_predicate(line): continue`): a missing predicate passes every
line. -/
def contentPredPasses (cp : Option (String → Bool)) (line : String) : Bool :=
  match cp with
  | some p => p line
  | none => true

/-- ContentController._context_handler: enumerate the splitlines of one
decoded chunk from 1, keep the lines passing the content predicate, and
emit one ArchiveMatch per kept line. -/
def contextHandler (archiveFile innerFile : String) (chunkSize : Option Int)
    (cp : Option (String → Bool)) (contents : String) : List ArchiveMatch :=
  ((pyEnumerate 1 (pySplitlines contents)).filter (fun p => contentPredPasses cp p.2)).map
    (fun p => ⟨archiveFile, innerFile, notImplementedIdx chunkSize p.1, p.2⟩)

/-- ContentController.handle: run _context_handler over every chunk of the
member's content and concatenate the produced matches. -/
def contentHandle (archiveFile innerFile : String) (chunkSize : Option Int)
    (cp : Option (String → Bool)) (content : List String) : List ArchiveMatch :=
  (content.map (contextHandler archiveFile innerFile chunkSize cp)).flatten

/-- Successive chunks of n characters (n is the read size; the fuel is an
upper bound on the number of chunks, instantiated with the text length). -/
def chunkCharsGo : Nat → Nat → List Char → List (List Char)
  | _, _, [] => []
  | 0, _, l => [l]
  | fuel + 1, n, c :: rest => (c :: rest.take (n - 1)) :: chunkCharsGo fuel n (rest.drop (n - 1))

/-- The read loop of ArchiveStreamer.stream_file_from_archive:
`while (chunk := f.read(chunk_size)): yield ...`.  read(None) and
read(negative) read to EOF in one chunk; read(0) returns the empty string
immediately, ending the loop; a positive size yields successive chunks of
at most that many characters. -/
def readChunks (chunkSize : Option Int) (s : String) : List String :=
  match chunkSize with
  | none => if s = "" then [] else [s]
  | some n =>
    if n < 0 then (if s = "" then [] else [s])
    else if n = 0 then []
    else (chunkCharsGo s.toList.length n.toNat s.toList).map (fun l => String.mk l)

/-- What the zero-chunk-size branch of validate_chunk_size actually
raises. -/
def chunkSizeRaiseMsg : String :=
  "raise ErrorCodes(ErrorCodes.CHUNK_SIZE_ERROR, msg): ErrorCodes is an IntEnum, not an exception"

/-- validate_chunk_size of utils/common.py.  None and every nonzero value
pass through unchanged.  For 0 the code executes
`raise ErrorCodes(ErrorCodes.CHUNK_SIZE_ERROR, long_message)`: ErrorCodes
is an IntEnum, so this two-argument call is the enum functional API with a
non-string class name and the statement raises TypeError -- it does not
build the InvalidChunkSize exception that ErrorCodes.raise_error would
have produced from the same code. -/
def validateChunkSize (chunkSize : Option Int) : Except PyExc (Option Int) :=
  match chunkSize with
  | none => Except.ok none
  | some n =>
    if n = 0 then Except.error (PyExc.typeError chunkSizeRaiseMsg)
    else Except.ok (some n)

/-- is_hidden_path of ArchiveEngine.iter_through_archives: some
forward-slash component starts with a dot. -/
def isHiddenPath (path : String) : Bool :=
  (pySplit '/' path).any (fun i => strStartsWith i ".")

/-- The member-level guards of iter_through_archives: a member is yielded
unless (not allow_hidden_paths and is_hidden_path) or the file predicate
is present and rejects it. -/
def memberKeep (allowHidden : Bool) (filePred : Option (String → Bool)) (innerFile : String) : Bool :=
  (allowHidden || !isHiddenPath innerFile) &&
    (match filePred with
     | some p => p innerFile
     | none => true)

/-- The member names one archive contributes through iter_through_archives,
in namelist order. -/
def iterThroughArchivesYield (allowHidden : Bool) (filePred : Option (String → Bool))
    (namelist : List String) : List String :=
  namelist.filter (memberKeep allowHidden filePred)

/-- The guard `if archive_predicate and not archive_predicate(file)` of
ArchiveEngine.__check_archives: absent predicate passes everything. -/
def archivePredPasses (archivePred : Option (String → Bool)) (archiveFile : String) : Bool :=
  match archivePred with
  | some p => p archiveFile
  | none => true

/-- ArchiveEngine.__check_archives classification loop: an invalid archive
goes to the bad set, a valid archive rejected by the archive predicate is
skipped (it joins neither set), a valid accepted archive goes to the good
set.  Python accumulates into sets; list membership models set
membership. -/
def checkArchives (validZip : String → Bool) (archivePred : Option (String → Bool)) :
    List String → List String × List String
  | [] => ([], [])
  | a :: rest =>
    if !validZip a then
      ((checkArchives validZip archivePred rest).1, a :: (checkArchives validZip archivePred rest).2)
    else if archivePredPasses archivePred a then
      (a :: (checkArchives validZip archivePred rest).1, (checkArchives validZip archivePred rest).2)
    else checkArchives validZip archivePred rest

/-- One archive as the decompression layer exposes it: its on-disk path
and its members.  A member's content is the result its open+read would
produce at consumption time: ok with the decoded bytes, or error with the
exception the read raises. -/
structure Archive where
  file : String
  members : List (String × Except PyExc String)
deriving Inhabited

/-- The host filesystem: which paths hold a readable zip archive.  Both
zipfile.is_zipfile(path) and ArchiveEngine(path) consult exactly this
map. -/
def HostFS := List (String × Archive)

/-- zipfile.is_zipfile / ArchiveReader resolution of a path against the
host filesystem. -/
def lookupArchive (fs : HostFS) (path : String) : Option Archive :=
  match fs with
  | [] => none
  | (p, ar) :: rest => if p = path then some ar else lookupArchive rest path

/-- The member loop of ArchiveEngine.find_file_contents over the already
filtered (archive, inner_file) pairs of one archive.  For a member ending
in ".zip": skipped when recursion is disabled; with recursion enabled the
member NAME is resolved on the host filesystem (zipfile.is_zipfile), an
unresolvable name is warned about and skipped, and a resolvable one is
drained through a fresh engine (default allow_hidden_paths=False) after
which NESTED_COUNT is incremented once.  For an ordinary member the
streamed content is handed to ContentController; a read error propagates
out of the loop -- find_file_contents has no handler around streaming, so
the remaining members are not processed.  Returns (matches, nested-count
increments). -/
def processMembers : Nat → HostFS → Bool → Option (String → Bool) → Option (String → Bool) →
    Option Int → String → List (String × Except PyExc String) →
    Except PyExc (List ArchiveMatch × Nat)
  | _, _, _, _, _, _, _, [] => Except.ok ([], 0)
  | 0, _, _, _, _, _, _, _ :: _ => Except.error (PyExc.recursionError "maximum recursion depth exceeded")
  | fuel + 1, fs, recursive, filePred, cp, cs, aFile, (name, content) :: rest =>
    if strEndsWith name ".zip" then
      if recursive then
        match lookupArchive fs name with
        | none => processMembers fuel fs recursive filePred cp cs aFile rest
        | some nested =>
          match processMembers fuel fs recursive filePred cp cs nested.file
              (nested.members.filter (fun m => memberKeep false filePred m.1)) with
          | Except.error e => Except.error e
          | Except.ok (ms, c) =>
            match processMembers fuel fs recursive filePred cp cs aFile rest with
            | Except.error e => Except.error e
            | Except.ok (ms', c') => Except.ok (ms ++ ms', c + 1 + c')
      else processMembers fuel fs recursive filePred cp cs aFile rest
    else
      match content with
      | Except.error e => Except.error e
      | Except.ok data =>
        match processMembers fuel fs recursive filePred cp cs aFile rest with
        | Except.error e => Except.error e
        | Except.ok (ms', c') =>
          Except.ok (contentHandle aFile name cs cp (readChunks cs data) ++ ms', c')

/-- find_file_contents on one validated archive: its namelist passes the
iter_through_archives member guards, then the member loop runs. -/
def findFileContentsFS (fuel : Nat) (fs : HostFS) (recursive : Bool) (allowHidden : Bool)
    (filePred : Option (String → Bool)) (cp : Option (String → Bool)) (cs : Option Int)
    (ar : Archive) : Except PyExc (List ArchiveMatch × Nat) :=
  processMembers fuel fs recursive filePred cp cs ar.file
    (ar.members.filter (fun m => memberKeep allowHidden filePred m.1))

/-- One search() call on a single input archive path: find_file_contents
validates the chunk size first (before the worker pool is created and
before any archive I/O), then __check_archives resolves the path on the
host filesystem (an unresolvable or invalid path leaves the good set empty
and raises NoValidArchives), then the member pipeline runs. -/
def engineSearch (fuel : Nat) (fs : HostFS) (allowHidden : Bool) (recursive : Bool)
    (filePred : Option (String → Bool)) (cp : Option (String → Bool)) (cs : Option Int)
    (root : String) : Except PyExc (List ArchiveMatch × Nat) :=
  match validateChunkSize cs with
  | Except.error e => Except.error e
  | Except.ok cs' =>
    match lookupArchive fs root with
    | none => Except.error (PyExc.noValidArchives "No valid archives were detected in the provided path(s).")
    | some ar => findFileContentsFS fuel fs recursive allowHidden filePred cp cs' ar

/-- ArchiveEngine.zipgrep_like effect on the class-level TOTAL_MATCHES
counter: it increments the counter once per match of the run and never
resets it, so the counter after a run is its prior value plus the run's
match count. -/
def zipgrepLike (totalMatchesBefore : Nat) (runMatches : List ArchiveMatch) : Nat :=
  totalMatchesBefore + runMatches.length

/-- tenacity retry with stop_after_attempt applied to an EAGER call: the
attempt-indexed action is invoked with attempts numbered from the first
argument while attempts remain; a success is returned as is and the
failure of the final attempt surfaces as tenacity.RetryError. -/
def tenacityRetryGo {α : Type} (act : Nat → Except PyExc α) : Nat → Nat → Except PyExc α
  | _, 0 => Except.error (PyExc.retryError "RetryError")
  | attempt, left + 1 =>
    match act attempt with
    | Except.ok v => Except.ok v
    | Except.error _ =>
      if left = 0 then Except.error (PyExc.retryError "RetryError")
      else tenacityRetryGo act (attempt + 1) left

/-- The decorator of ArchiveStreamer.stream_file_from_archive:
retry(stop=stop_after_attempt(3)) as it would act on an eager callable. -/
def tenacityRetryStop3 {α : Type} (act : Nat → Except PyExc α) : Except PyExc α :=
  tenacityRetryGo act 1 3

/-- BaseFileFiltering.__call__: evaluate every sub-filter on the subject
and collect the booleans. -/
def baseFileFiltering {α : Type} (filters : List (α → Bool)) (x : α) : List Bool :=
  filters.map (fun f => f x)

/-- Python all over a list of booleans. -/
def pyAll (l : List Bool) : Bool := l.all id

/-- Python any over a list of booleans. -/
def pyAny (l : List Bool) : Bool := l.any id

/-- LogicalFilter.__call__: the configured method applied to the collected
sub-filter results. -/
def logicalFilterCall {α : Type} (method : List Bool → Bool) (filters : List (α → Bool)) (x : α) : Bool :=
  method (baseFileFiltering filters x)

/-- AndFilter: LogicalFilter with method=all. -/
def andFilter {α : Type} (filters : List (α → Bool)) (x : α) : Bool :=
  logicalFilterCall pyAll filters x

/-- OrFilter: LogicalFilter with method=any. -/
def orFilter {α : Type} (filters : List (α → Bool)) (x : α) : Bool :=
  logicalFilterCall pyAny filters x

/-- NotFilter: LogicalFilter with method=NotFilter.negate, i.e. not any. -/
def notFilter {α : Type} (filters : List (α → Bool)) (x : α) : Bool :=
  logicalFilterCall (fun l => !pyAny l) filters x

/-- FileExtensionFilter.serialize_extension: empty stays empty, a leading
dot is ensured, lowercasing applies when case-insensitive. -/
def serializeExtension (caseSensitive : Bool) (extension : String) : String :=
  if extension = "" then ""
  else
    let e := if strStartsWith extension "." then extension else "." ++ extension
    if caseSensitive then e else strToLower e

/-- Occurrences of a character in a string (Python str.count for a
one-character needle). -/
def countChar (s : String) (c : Char) : Nat :=
  (s.toList.filter (fun d => d = c)).length

/-- FileExtensionFilter.__call__ for list-typed rule sets.  get_posix_name
leaves a plain member string unchanged, so the file argument is used as
is. -/
def fileExtensionFilter (extensions excludeExtensions : Option (List String))
    (file : String) (caseSensitive : Bool) : Bool :=
  let exts0 := extensions.getD []
  let xexts0 := excludeExtensions.getD []
  if exts0.isEmpty && xexts0.isEmpty then true
  else
    let exts := exts0.map (serializeExtension caseSensitive)
    let xexts := xexts0.map (serializeExtension caseSensitive)
    let isHiddenFile := strStartsWith file "." && countChar file '.' == 1
    let allowNoExtensionFiles := exts.contains ""
    if (!strContainsChar file '.') || isHiddenFile || allowNoExtensionFiles then allowNoExtensionFiles
    else
      let fileSuffix := serializeExtension caseSensitive ((pySplit '.' file).getLastD "")
      if !exts.isEmpty && !xexts.isEmpty then exts.contains fileSuffix && !xexts.contains fileSuffix
      else if !exts.isEmpty then exts.contains fileSuffix
      else !xexts.contains fileSuffix

/-- The content predicate of the concrete scenarios: the line contains
"hello". -/
def predHello (line : String) : Bool := strContainsSub line "hello"

/-- outer.zip as stored on disk: one member named inner.zip whose bytes
are the nested zip container. -/
def outerArchive : Archive := ⟨"outer.zip", [("inner.zip", Except.ok "PKnestedzipbytes")]⟩

/-- inner.zip as an archive: one member report.txt with the line
"hello world". -/
def innerArchive : Archive := ⟨"inner.zip", [("report.txt", Except.ok "hello world")]⟩

/-- Host filesystem of the C1 scenario: only outer.zip exists on disk;
inner.zip lives solely inside outer.zip. -/
def fsOuterOnly : HostFS := [("outer.zip", outerArchive)]

/-- Host filesystem where the nested archive also happens to exist on disk
under its member name (the only situation in which the code's recursion
can open it). -/
def fsBothOnDisk : HostFS := [("outer.zip", outerArchive), ("inner.zip", innerArchive)]

/-- An archive whose first member's read fails and whose second member
contains a matching line. -/
def badGoodArchive : Archive :=
  ⟨"a.zip", [("bad.txt", Except.error (PyExc.osError "disk read failure")),
             ("good.txt", Except.ok "hello world")]⟩

/-- Host filesystem of the C4 scenario. -/
def fsC4 : HostFS := [("a.zip", badGoodArchive)]

/-- Host filesystem of the C6 scenario: one archive with one matching
line. -/
def fsC6 : HostFS := [("a.zip", ⟨"a.zip", [("notes.txt", Except.ok "hello world")]⟩)]

/-- The match list one search() run over fsC6 produces. -/
def c6RunMatches : List ArchiveMatch :=
  match engineSearch 4 fsC6 false false none (some predHello) none "a.zip" with
  | Except.ok (ms, _) => ms
  | Except.error _ => []

/-- The single chunk of the C5 scenario: two lines, both containing the
pattern, inside one bounded chunk. -/
def c5Chunk : String := "hello a\nhello b"

/-- An attempt-indexed action failing on the first two attempts and
succeeding on the third. -/
def actC4 (k : Nat) : Except PyExc (List String) :=
  if k ≤ 2 then Except.error (PyExc.osError "transient read failure") else Except.ok ["member content"]

/-! Helper lemmas. -/

/-- checkArchives computed as two filters over the input list: good keeps
the valid, predicate-accepted archives; bad keeps the invalid ones. -/
theorem checkArchives_eq_filters (v : String → Bool) (p : Option (String → Bool)) (l : List String) :
    checkArchives v p l =
      (l.filter (fun a => v a && archivePredPasses p a), l.filter (fun a => !v a)) := by
  induction l with
  | nil => rfl
  | cons b rest ih =>
    cases hv : v b <;> cases hp : archivePredPasses p b <;>
      simp [checkArchives, List.filter_cons, hv, hp, ih]

/-- Filtering an enumerated list on the payload keeps as many elements as
filtering the plain list. -/
theorem pyEnumerate_filter_length {α : Type} (pred : α → Bool) (k : Nat) (l : List α) :
    ((pyEnumerate k l).filter (fun p => pred p.2)).length = (l.filter pred).length := by
  induction l generalizing k with
  | nil => rfl
  | cons a rest ih =>
    cases h : pred a <;> simp [pyEnumerate, List.filter_cons, h, ih]

/-- One chunk contributes exactly one match per line passing the content
predicate. -/
theorem contextHandler_length (a f : String) (cs : Option Int) (cp : Option (String → Bool))
    (s : String) :
    (contextHandler a f cs cp s).length =
      ((pySplitlines s).filter (contentPredPasses cp)).length := by
  simp [contextHandler, pyEnumerate_filter_length]

/-- Every match a chunk contributes carries a _not_implemented_idx line
field. -/
theorem contextHandler_lineNo (a f : String) (cs : Option Int) (cp : Option (String → Bool))
    (s : String) (m : ArchiveMatch) (hm : m ∈ contextHandler a f cs cp s) :
    ∃ i, m.lineNo = notImplementedIdx cs i := by
  rcases List.mem_map.mp hm with ⟨p, -, rfl⟩
  exact ⟨p.1, rfl⟩

/-! Claim theorems. -/

/-- Claim C1 (code_bug evaluation).  The spec scenario: outer.zip contains
inner.zip which contains report.txt with the line "hello world"; only
outer.zip exists on the host filesystem.  Searching "hello" with recursion
disabled yields 0 matches as claimed; but with recursion enabled the code
resolves the member name "inner.zip" against the host filesystem
(zipfile.is_zipfile on the bare member name), finds nothing there, skips
the member as an invalid nested archive, and also yields 0 matches with
NESTED_COUNT 0 -- not the claimed 1 match and counter 1.  The third
conjunct shows the claimed behaviour (1 match resolving through inner.zip,
counter 1) appears only when the nested archive coincidentally also exists
on disk under its member name. -/
theorem C1_nested_member_resolved_on_disk :
    engineSearch 4 fsOuterOnly false false none (some predHello) none "outer.zip" =
      Except.ok ([], 0) ∧
    engineSearch 4 fsOuterOnly false true none (some predHello) none "outer.zip" =
      Except.ok ([], 0) ∧
    engineSearch 4 fsBothOnDisk false true none (some predHello) none "outer.zip" =
      Except.ok ([⟨"inner.zip", "report.txt", LineNo.intIdx 1, "hello world"⟩], 1) :=
  ⟨rfl, rfl, rfl⟩

/-- Claim C2 (counterexample).  Two valid archives "A" and "B" with an
archive predicate accepting only "A": validation completes (the good set
is nonempty, so no NoValidArchives is raised), yet "B" -- which passed
format validation and was rejected by the predicate -- is a member of
neither the good set nor the bad set, refuting the claimed two-set
coverage. -/
theorem C2_counterexample :
    "B" ∉ (checkArchives (fun _ => true) (some (fun a => a == "A")) ["A", "B"]).1 ∧
    "B" ∉ (checkArchives (fun _ => true) (some (fun a => a == "A")) ["A", "B"]).2 := by
  decide

/-- Claim C2 (amended).  After __check_archives, membership is fully
characterised: an input is in the good set iff it is valid and passes the
archive predicate, in the bad set iff it is invalid, and never in both --
so the union covers every validated input EXCEPT the valid inputs the
caller-supplied archive predicate rejected, which land in neither set. -/
theorem C2_partition_characterization (v : String → Bool) (p : Option (String → Bool))
    (l : List String) (a : String) :
    (a ∈ (checkArchives v p l).1 ↔ a ∈ l ∧ v a = true ∧ archivePredPasses p a = true) ∧
    (a ∈ (checkArchives v p l).2 ↔ a ∈ l ∧ v a = false) ∧
    ¬(a ∈ (checkArchives v p l).1 ∧ a ∈ (checkArchives v p l).2) := by
  rw [checkArchives_eq_filters]
  refine ⟨?_, ?_, ?_⟩
  · simp [List.mem_filter, and_assoc]
  · simp [List.mem_filter]
  · rintro ⟨h1, h2⟩
    have hv1 := (List.mem_filter.mp h1).2
    have hv2 := (List.mem_filter.mp h2).2
    simp only [Bool.and_eq_true, Bool.not_eq_true'] at hv1 hv2
    rw [hv1.1] at hv2
    simp at hv2

/-- Claim C3 (counterexample).  OrFilter over the empty filter list is
any([]) and returns false on every subject, not the claimed true. -/
theorem C3_counterexample : orFilter ([] : List (String → Bool)) "member.txt" = false := rfl

/-- Claim C3 (amended).  Empty composites: AndFilter([]) is all([]) = true
and NotFilter([]) is not any([]) = true, but OrFilter([]) is any([]) =
false -- an empty OR composite rejects every subject instead of passing
it. -/
theorem C3_empty_composites {α : Type} (x : α) :
    andFilter ([] : List (α → Bool)) x = true ∧
    orFilter ([] : List (α → Bool)) x = false ∧
    notFilter ([] : List (α → Bool)) x = true :=
  ⟨rfl, rfl, rfl⟩

/-- Claim C4 (counterexample).  An archive whose first member's read fails
and whose second member contains a matching line: find_file_contents has
no handler around member streaming, so the raw error (not an
ArchiveUnreadable -- no such class exists in the code) propagates and
aborts the search; the match of the healthy second member is never
produced, refuting "the engine then continues processing the remaining
members". -/
theorem C4_counterexample :
    engineSearch 4 fsC4 false false none (some predHello) none "a.zip" =
      Except.error (PyExc.osError "disk read failure") := rfl

/-- Claim C4 (amended).  The decorator's policy stop_after_attempt(3),
applied to an eager call, does return the result of a third attempt after
two failures; but in the engine a member whose streamed read fails raises
its raw error out of the member loop of find_file_contents, aborting the
remaining members instead of continuing (stream_file_from_archive is a
generator function, so the retry wraps only generator construction and no
ArchiveUnreadable exists to be raised). -/
theorem C4_retry_policy_and_abort :
    (∀ (act : Nat → Except PyExc (List String)) (e1 e2 : PyExc) (v : List String),
      act 1 = Except.error e1 → act 2 = Except.error e2 → act 3 = Except.ok v →
      tenacityRetryStop3 act = Except.ok v) ∧
    (∀ (fuel : Nat) (fs : HostFS) (recursive : Bool) (filePred cp : Option (String → Bool))
      (cs : Option Int) (aFile name : String) (e : PyExc)
      (rest : List (String × Except PyExc String)),
      strEndsWith name ".zip" = false →
      processMembers (fuel + 1) fs recursive filePred cp cs aFile
          ((name, Except.error e) :: rest) = Except.error e) := by
  constructor
  · intro act e1 e2 v h1 h2 h3
    simp [tenacityRetryStop3, tenacityRetryGo, h1, h2, h3]
  · intro fuel fs recursive filePred cp cs aFile name e rest h
    simp [processMembers, h]

/-- Claim C4 (witness for the amended theorem): the fail-fail-succeed
action succeeds under the 3-attempt policy, and a concrete failing member
aborts the member loop with its raw error. -/
theorem C4_retry_policy_and_abort_witness :
    tenacityRetryStop3 actC4 = Except.ok ["member content"] ∧
    processMembers 1 fsC4 false none (some predHello) none "a.zip"
        [("bad.txt", Except.error (PyExc.osError "disk read failure"))] =
      Except.error (PyExc.osError "disk read failure") :=
  ⟨C4_retry_policy_and_abort.1 actC4 (PyExc.osError "transient read failure")
      (PyExc.osError "transient read failure") ["member content"] rfl rfl rfl,
   C4_retry_policy_and_abort.2 0 fsC4 false none (some predHello) none "a.zip" "bad.txt"
      (PyExc.osError "disk read failure") [] (by decide)⟩

/-- Claim C5 (counterexample).  In bounded-chunk mode (chunk_size = 100)
the single chunk "hello a\nhello b" satisfies the content predicate as a
whole, yet the handler emits TWO match records -- one per matching line of
the chunk, each line's text, with the per-chunk line index suffixed by
"?" -- not the claimed single record for the whole chunk. -/
theorem C5_counterexample :
    contentPredPasses (some predHello) c5Chunk = true ∧
    contentHandle "a.zip" "f.txt" (some 100) (some predHello) (readChunks (some 100) c5Chunk) =
      [⟨"a.zip", "f.txt", LineNo.strIdx "1?", "hello a"⟩,
       ⟨"a.zip", "f.txt", LineNo.strIdx "2?", "hello b"⟩] :=
  ⟨rfl, rfl⟩

/-- Claim C5 (amended).  The content handler always splits each decoded
chunk into lines and evaluates the predicate per line, emitting one match
record per matching line (the match count is the total of matching lines
over all chunks); a record carries a plain integer line number iff
chunk_size is None -- with a chunk_size set, the line field is the
within-chunk index turned into the placeholder string "idx?". -/
theorem C5_per_line_and_marker (a f : String) (cs : Option Int) (cp : Option (String → Bool))
    (chunks : List String) :
    (contentHandle a f cs cp chunks).length =
      (chunks.map (fun c => ((pySplitlines c).filter (contentPredPasses cp)).length)).sum ∧
    ∀ m ∈ contentHandle a f cs cp chunks, ((∃ k, m.lineNo = LineNo.intIdx k) ↔ cs = none) := by
  constructor
  · simp [contentHandle, List.map_map, Function.comp_def, contextHandler_length]
  · intro m hm
    have hm' : ∃ c, c ∈ chunks ∧ m ∈ contextHandler a f cs cp c := by
      simpa [contentHandle] using hm
    rcases hm' with ⟨c, -, hmc⟩
    rcases contextHandler_lineNo a f cs cp c m hmc with ⟨i, hi⟩
    rw [hi]
    cases cs with
    | none => simp [notImplementedIdx]
    | some n => simp [notImplementedIdx]

/-- Claim C5 (witness for the amended theorem) at a concrete whole-file
instance. -/
theorem C5_per_line_and_marker_witness :
    (∃ k, (⟨"a", "f", LineNo.intIdx 1, "hello"⟩ : ArchiveMatch).lineNo = LineNo.intIdx k) ↔
      (none : Option Int) = none :=
  (C5_per_line_and_marker "a" "f" none (some predHello) ["hello"]).2
    ⟨"a", "f", LineNo.intIdx 1, "hello"⟩ (by decide)

/-- Claim C6 (counterexample).  A run over one archive with one matching
line: after the first search() the class-level TOTAL_MATCHES reads 1,
after re-running the identical search it reads 2 -- the two runs do not
report the same value. -/
theorem C6_counterexample :
    zipgrepLike (zipgrepLike 0 c6RunMatches) c6RunMatches ≠ zipgrepLike 0 c6RunMatches := by
  decide

/-- Claim C6 (amended).  TOTAL_MATCHES is a class-level counter that is
never reset: running the identical search twice leaves the counter at its
starting value plus twice the per-run match count, so the value read after
each of two identical runs coincides only for runs with zero matches. -/
theorem C6_counter_accumulates (t : Nat) (ms : List ArchiveMatch) :
    zipgrepLike (zipgrepLike t ms) ms = t + 2 * ms.length ∧
    (zipgrepLike (zipgrepLike t ms) ms = zipgrepLike t ms ↔ ms = []) := by
  constructor
  · simp [zipgrepLike]; ring
  · simp only [zipgrepLike]
    constructor
    · intro h
      have hl : ms.length = 0 := by omega
      exact List.length_eq_zero.mp hl
    · rintro rfl; simp

/-- Claim C7 (code_bug evaluation).  A search with chunk_size 0 aborts
eagerly -- before the archive lookup, before any member I/O and before the
member loop, for every filesystem and every input -- but the abort is the
TypeError produced by `raise ErrorCodes(ErrorCodes.CHUNK_SIZE_ERROR, msg)`
(ErrorCodes is an IntEnum, not an exception class), not the
InvalidChunkSize that the code's own ErrorCodes.raise_error mapping was
meant to produce. -/
theorem C7_chunk_zero_raises_typeerror (fuel : Nat) (fs : HostFS) (allowHidden recursive : Bool)
    (filePred cp : Option (String → Bool)) (root : String) :
    engineSearch fuel fs allowHidden recursive filePred cp (some 0) root =
      Except.error (PyExc.typeError chunkSizeRaiseMsg) := rfl

/-- Claim C8.  The extension filter on the dotless member "data": with
include set [".zip"] (empty string absent) the member is excluded; with
include set [""] it is included. -/
theorem C8_extension_filter_no_dot :
    fileExtensionFilter (some [".zip"]) none "data" true = false ∧
    fileExtensionFilter (some [""]) none "data" true = true :=
  ⟨rfl, rfl⟩

/-- Claim C9.  With allow_hidden_paths at its default false, a member
whose forward-slash path has a component starting with a dot is never
yielded by the enumeration of iter_through_archives, whatever file
predicate the caller supplied -- so it can never reach the content
pipeline that produces match records. -/
theorem C9_hidden_members_dropped (filePred : Option (String → Bool)) (namelist : List String)
    (f : String) (h : isHiddenPath f = true) :
    f ∉ iterThroughArchivesYield false filePred namelist := by
  intro hmem
  have hk := (List.mem_filter.mp hmem).2
  simp [memberKeep, h] at hk

/-- Claim C9 (witness): the hidden member ".git/config" is dropped from a
concrete enumeration. -/
theorem C9_hidden_members_dropped_witness :
    isHiddenPath ".git/config" = true ∧
    ".git/config" ∉ iterThroughArchivesYield false none [".git/config", "a.txt"] :=
  ⟨by decide, C9_hidden_members_dropped none [".git/config", "a.txt"] ".git/config" (by decide)⟩

/-- Claim C10.  validate_chunk_size rejects only the exact value 0: every
negative chunk size is returned unchanged without an error, so a search
with a negative chunk size proceeds past configuration validation. -/
theorem C10_negative_chunk_passes (n : Int) (h : n < 0) :
    validateChunkSize (some n) = Except.ok (some n) := by
  have hne : ¬(n = 0) := by omega
  simp [validateChunkSize, hne]

/-- Claim C10 (witness) at chunk size -1. -/
theorem C10_negative_chunk_passes_witness :
    ((-1 : Int) < 0) ∧ validateChunkSize (some (-1)) = Except.ok (some (-1)) :=
  ⟨by decide, C10_negative_chunk_passes (-1) (by decide)⟩
